import Mathlib

/-!
# Verification of the oclc-reclamation request/classification core

This development shallowly embeds the core of the `oclc-reclamation`
repository (`src/libraries/records_buffer.py` and `src/search_worldcat.py`)
in Lean 4 and proves the behavioural properties stated in the project
specification.

Conventions of the embedding:
* Environment variables are modelled as `Option String` (or already-parsed
  `Option Int` values where the Python code parses them before use).
* Python exceptions become explicit error values: a function that can raise
  returns `Option ProcError × State`, where the state component is the
  object state at the moment the exception propagates (Python objects keep
  their partial mutations when an exception escapes).
* Timestamps are integer seconds since the Unix epoch.
* CSV rows are `List String`; header rows (written lazily depending on file
  position) belong to the file layer and are not modelled.
-/

/-! ## OAuth token renewal (`RecordsBuffer.make_api_request`) -/

/-- The relevant slice of the process environment for token renewal:
the optional refresh token and its already-parsed expiry (the Python code
parses `WORLDCAT_METADATA_API_REFRESH_TOKEN_EXPIRES_AT` with
`calendar.timegm(time.strptime ...)`; absence of the variable leaves the
expiry at `0.0`). -/
structure OAuthEnv where
  refresh_token : Option String
  refresh_token_expires_at : Option Int
deriving Repr, DecidableEq

/-- The token dictionary returned by `oauth_session.fetch_token`
(client-credentials grant): it carries a fresh refresh token besides the
access-token fields. -/
structure FullGrantToken where
  access_token : String
  token_type : String
  expires_at : String
  new_refresh_token : String
  new_refresh_token_expires_at : String
deriving Repr, DecidableEq

/-- The token dictionary returned by `oauth_session.refresh_token`
(refresh-token grant): only the access-token fields are read by the code. -/
structure RefreshGrantToken where
  access_token : String
  token_type : String
  expires_at : String
deriving Repr, DecidableEq

/-- Which grant `make_api_request` used to renew the access token. -/
inductive GrantKind
  | refreshGrant
  | fullGrant
deriving Repr, DecidableEq

/-- Observable trace of one `make_api_request` call: the URL actually
requested, the grant used for renewal (if any), the `.env` variables
persisted via `libraries.handle_file.set_env_var` in call order, and how
many times the underlying request function was invoked. -/
structure ApiCallTrace where
  url_used : String
  grant_used : Option GrantKind
  persisted : List (String × String)
  request_count : Nat
deriving Repr, DecidableEq

def accessTokenVar : String := "WORLDCAT_METADATA_API_ACCESS_TOKEN"
def accessTokenTypeVar : String := "WORLDCAT_METADATA_API_ACCESS_TOKEN_TYPE"
def accessTokenExpiresVar : String := "WORLDCAT_METADATA_API_ACCESS_TOKEN_EXPIRES_AT"
def refreshTokenVar : String := "WORLDCAT_METADATA_API_REFRESH_TOKEN"
def refreshTokenExpiresVar : String := "WORLDCAT_METADATA_API_REFRESH_TOKEN_EXPIRES_AT"

/-- Embedding of `RecordsBuffer.make_api_request`
(`src/libraries/records_buffer.py`, lines 128-251).

`transaction_id` is the value computed by `get_transaction_id`;
`first_attempt_expired` tells whether the initial `api_request` call raised
`TokenExpiredError`; `now` is `time.time()`; `full_tok` / `refresh_tok` are
the token dictionaries the two grant endpoints would return. The HTTP
outcome of the (possibly replayed) request is orthogonal to the renewal
logic and is not part of the trace. -/
def make_api_request (env : OAuthEnv) (now : Int) (transaction_id : String)
    (api_url : String) (first_attempt_expired : Bool)
    (full_tok : FullGrantToken) (refresh_tok : RefreshGrantToken) :
    ApiCallTrace :=
  let url := if transaction_id ≠ "" then
    api_url ++ "&transactionID=" ++ transaction_id else api_url
  if ¬first_attempt_expired then
    { url_used := url, grant_used := none, persisted := [],
      request_count := 1 }
  else
    let refresh_token_expires_at := env.refresh_token_expires_at.getD 0
    let refresh_token_expires_in := refresh_token_expires_at - now
    if env.refresh_token.isSome ∧ refresh_token_expires_in > 25 then
      { url_used := url, grant_used := some .refreshGrant,
        persisted :=
          [(accessTokenVar, refresh_tok.access_token),
           (accessTokenTypeVar, refresh_tok.token_type),
           (accessTokenExpiresVar, refresh_tok.expires_at)],
        request_count := 2 }
    else
      { url_used := url, grant_used := some .fullGrant,
        persisted :=
          [(refreshTokenVar, full_tok.new_refresh_token),
           (refreshTokenExpiresVar, full_tok.new_refresh_token_expires_at),
           (accessTokenVar, full_tok.access_token),
           (accessTokenTypeVar, full_tok.token_type),
           (accessTokenExpiresVar, full_tok.expires_at)],
        request_count := 2 }

/-! ## Transaction id (`RecordsBuffer.get_transaction_id`) -/

/-- Embedding of `RecordsBuffer.get_transaction_id`
(`src/libraries/records_buffer.py`, lines 100-126). `symbol` and
`principal` model the `OCLC_INSTITUTION_SYMBOL` and
`WORLDCAT_PRINCIPAL_ID` environment variables; `timestamp` is the
formatted UTC time string. -/
def get_transaction_id (symbol principal : Option String)
    (timestamp : String) : String :=
  if symbol.isSome ∨ principal.isSome then
    let t := symbol.getD ""
    let t := if t ≠ "" then t ++ "_" else t
    let t := t ++ timestamp
    match principal with
    | some p => t ++ "_" ++ p
    | none => t
  else ""

/-! ## Errors raised by the buffer operations -/

/-- The Python exceptions that can escape a `process_records` call. -/
inductive ProcError
  | jsonDecodeError
  | keyError (key : String)
  | httpError (status : Nat)
  | assertionError (msg : String)
  | indexError
deriving Repr, DecidableEq

/-- Outcome of the HTTP layer as seen by `process_records`:
`make_api_request` raises `HTTPError` for a 4xx/5xx status (via
`raise_for_status`) before `.json()` is ever called; otherwise `.json()`
either fails to decode (`Except.error`) or yields the parsed body. -/
inductive ApiResponse (α : Type)
  | httpError (status : Nat)
  | ok (body : Except Unit α)

/-! ## AlmaRecordsBuffer (holdings check) -/

/-- One element of the `entry` array in a Get Current OCLC Number API
response. -/
structure AlmaEntry where
  requestedOclcNumber : String
  currentOclcNumber : String
  found : Bool
  merged : Bool
deriving Repr, DecidableEq

/-- The slice of the `results` dictionary mutated by
`AlmaRecordsBuffer.process_records`. -/
structure AlmaResults where
  num_records_with_current_oclc_num : Nat
  num_records_with_old_oclc_num : Nat
  num_records_with_errors : Nat
deriving Repr, DecidableEq

/-- The observable state of an `AlmaRecordsBuffer`: the rows written to the
three CSV output files and the aggregate counters. -/
structure AlmaState where
  records_with_current_oclc_num : List (List String)
  records_with_old_oclc_num : List (List String)
  records_with_errors : List (List String)
  results : AlmaResults
deriving Repr, DecidableEq

/-- Error-row message for a not-found OCLC number
(`AlmaRecordsBuffer.process_records`, line 434). -/
def alma_not_found_msg : String :=
  "Problem with Get Current OCLC Number API response: OCLC number not found"

/-- Embedding of `AlmaRecordsBuffer.add` (lines 343-363): the buffer is the
insertion-ordered dictionary `oclc_num_dict`; a duplicate key raises
`AssertionError` before any mutation. -/
def alma_add (oclc_num_dict : List (String × String))
    (orig_oclc_num mms_id : String) :
    Option String × List (String × String) :=
  if (oclc_num_dict.lookup orig_oclc_num).isSome then
    (some ("OCLC number " ++ orig_oclc_num ++
      " already exists in records buffer with MMS ID " ++
      ((oclc_num_dict.lookup orig_oclc_num).getD "")), oclc_num_dict)
  else
    (none, oclc_num_dict ++ [(orig_oclc_num, mms_id)])

/-- The MMS ID looked up for a response entry (`self.oclc_num_dict[...]`,
line 409); total version used in bucket characterizations, valid whenever
the lookup succeeds. -/
def alma_mms (oclc_num_dict : List (String × String)) (e : AlmaEntry) :
    String :=
  (oclc_num_dict.lookup e.requestedOclcNumber).getD ""

/-- One iteration of the classification loop in
`AlmaRecordsBuffer.process_records` (lines 403-468); `none` models the
`KeyError` raised by the MMS ID lookup when the response mentions an
identifier that is not in the buffer. -/
def alma_step (oclc_num_dict : List (String × String)) (st : AlmaState)
    (e : AlmaEntry) : Option AlmaState :=
  match oclc_num_dict.lookup e.requestedOclcNumber with
  | none => none
  | some mms_id =>
    if e.found = false then
      some { st with
        records_with_errors := st.records_with_errors ++
          [[mms_id, e.requestedOclcNumber, alma_not_found_msg]],
        results := { st.results with
          num_records_with_errors :=
            st.results.num_records_with_errors + 1 } }
    else if e.merged = false then
      some { st with
        records_with_current_oclc_num :=
          st.records_with_current_oclc_num ++
            [[mms_id, e.currentOclcNumber]],
        results := { st.results with
          num_records_with_current_oclc_num :=
            st.results.num_records_with_current_oclc_num + 1 } }
    else
      some { st with
        records_with_old_oclc_num := st.records_with_old_oclc_num ++
          [[mms_id, e.currentOclcNumber, e.requestedOclcNumber]],
        results := { st.results with
          num_records_with_old_oclc_num :=
            st.results.num_records_with_old_oclc_num + 1 } }

/-- The classification loop over all response entries; a `KeyError` aborts
the loop, leaving the rows already written in place. -/
def alma_run_loop (oclc_num_dict : List (String × String)) :
    AlmaState → List AlmaEntry → Option ProcError × AlmaState
  | st, [] => (none, st)
  | st, e :: rest =>
    match alma_step oclc_num_dict st e with
    | none => (some (.keyError e.requestedOclcNumber), st)
    | some st2 => alma_run_loop oclc_num_dict st2 rest

/-- Embedding of `AlmaRecordsBuffer.process_records` (lines 365-479): an
HTTP error from `make_api_request` propagates before the body is read; a
JSON decode failure is caught, logged and re-raised; otherwise every
response entry is classified. -/
def alma_process_records (oclc_num_dict : List (String × String))
    (st : AlmaState) (response : ApiResponse (List AlmaEntry)) :
    Option ProcError × AlmaState :=
  match response with
  | .httpError status => (some (.httpError status), st)
  | .ok (.error _) => (some .jsonDecodeError, st)
  | .ok (.ok entries) => alma_run_loop oclc_num_dict st entries

/-- Initial (empty) Alma buffer state. -/
def almaState0 : AlmaState := ⟨[], [], [], ⟨0, 0, 0⟩⟩

/-! ## WorldCatRecordsBuffer (set/unset holding) -/

/-- One element of the `entry` array in a Set/Unset Holding API response. -/
structure HoldingEntry where
  requestedOclcNumber : String
  currentOclcNumber : String
  httpStatusCode : String
  errorDetail : String
deriving Repr, DecidableEq

/-- The slice of the `results` dictionary mutated by
`WorldCatRecordsBuffer.process_records`. -/
structure WorldCatResults where
  num_records_updated : Nat
  num_records_with_no_update_needed : Nat
  num_records_with_errors : Nat
deriving Repr, DecidableEq

/-- The observable state of a `WorldCatRecordsBuffer`: the rows written to
the three CSV output files and the aggregate counters. -/
structure WorldCatState where
  records_updated : List (List String)
  records_with_no_update_needed : List (List String)
  records_with_errors : List (List String)
  results : WorldCatResults
deriving Repr, DecidableEq

/-- Embedding of `WorldCatRecordsBuffer.add` (lines 607-624): the buffer is
the set `oclc_num_set` (modelled as a duplicate-free list); a duplicate
member raises `AssertionError` before any mutation. -/
def worldcat_add (oclc_num_set : List String) (oclc_num : String) :
    Option String × List String :=
  if oclc_num ∈ oclc_num_set then
    (some ("OCLC number " ++ oclc_num ++
      " already exists in records buffer"), oclc_num_set)
  else
    (none, oclc_num_set ++ [oclc_num])

/-- `new_oclc_num` computed for a response entry (lines 687-690): empty
when the requested number is still current. -/
def wc_new_oclc_num (e : HoldingEntry) : String :=
  if e.requestedOclcNumber == e.currentOclcNumber then ""
  else e.currentOclcNumber

/-- `oclc_num_msg` computed for a response entry (lines 688-695): a warning
that the catalog record should be updated, attached exactly when the
current number differs from the requested one. -/
def wc_oclc_num_msg (e : HoldingEntry) : String :=
  if e.requestedOclcNumber == e.currentOclcNumber then ""
  else
    "Warning: OCLC number " ++ e.requestedOclcNumber ++
      " has been updated to " ++ e.currentOclcNumber ++
      ". Consider updating Alma record."

/-- Branch conditions of the classification (lines 703, 721): an entry is
classified by its embedded HTTP-status string. -/
def wc_is_200 (e : HoldingEntry) : Bool :=
  e.httpStatusCode == "HTTP 200 OK"

def wc_is_409 (e : HoldingEntry) : Bool :=
  e.httpStatusCode == "HTTP 409 Conflict"

/-- One iteration of the classification loop in
`WorldCatRecordsBuffer.process_records` (lines 682-763); `api_msg` is the
`Problem with ... response` prefix derived from the set/unset choice. -/
def wc_step (api_msg : String) (st : WorldCatState) (e : HoldingEntry) :
    WorldCatState :=
  if wc_is_200 e then
    { st with
      records_updated := st.records_updated ++
        [[e.requestedOclcNumber, wc_new_oclc_num e, wc_oclc_num_msg e]],
      results := { st.results with
        num_records_updated := st.results.num_records_updated + 1 } }
  else if wc_is_409 e then
    { st with
      records_with_no_update_needed := st.records_with_no_update_needed ++
        [[e.requestedOclcNumber, wc_new_oclc_num e,
          api_msg ++ ": " ++ e.errorDetail ++ ". " ++ wc_oclc_num_msg e]],
      results := { st.results with
        num_records_with_no_update_needed :=
          st.results.num_records_with_no_update_needed + 1 } }
  else
    { st with
      records_with_errors := st.records_with_errors ++
        [[e.requestedOclcNumber, wc_new_oclc_num e,
          api_msg ++ ": " ++ e.httpStatusCode ++ ": " ++ e.errorDetail ++
            ". " ++ wc_oclc_num_msg e]],
      results := { st.results with
        num_records_with_errors := st.results.num_records_with_errors + 1 } }

/-- The classification loop over all response entries, in response order. -/
def wc_run_loop (api_msg : String) (st : WorldCatState)
    (entries : List HoldingEntry) : WorldCatState :=
  entries.foldl (wc_step api_msg) st

/-- Embedding of `WorldCatRecordsBuffer.process_records` (lines 626-774):
the `Problem with ...` prefix depends on the set/unset choice; an HTTP
error propagates before the body is read; a JSON decode failure is caught,
logged and re-raised; otherwise every response entry is classified, driven
solely by the response (the buffered input set is used only to build the
request URL). -/
def wc_api_msg (set_or_unset_choice : String) : String :=
  "Problem with " ++
    (if set_or_unset_choice == "set" then "Set Holding API"
      else "Unset Holding API") ++ " response"

def worldcat_process_records (set_or_unset_choice : String)
    (st : WorldCatState) (response : ApiResponse (List HoldingEntry)) :
    Option ProcError × WorldCatState :=
  let api_msg := wc_api_msg set_or_unset_choice
  match response with
  | .httpError status => (some (.httpError status), st)
  | .ok (.error _) => (some .jsonDecodeError, st)
  | .ok (.ok entries) => (none, wc_run_loop api_msg st entries)

/-- Initial (empty) WorldCat set/unset buffer state. -/
def worldcatState0 : WorldCatState := ⟨[], [], [], ⟨0, 0, 0⟩⟩

/-! ## WorldCatSearchBuffer (single-record search) -/

/-- The fields of a buffered search record read by `WorldCatSearchBuffer`:
its row index in the input DataFrame and its LCCN. -/
structure SearchRecord where
  Index : Nat
  lccn : String
deriving Repr, DecidableEq

/-- The result columns of one DataFrame row written by
`WorldCatSearchBuffer.process_records`. -/
structure SearchRow where
  oclc_num : Option String
  found_multiple_oclc_nums : Bool
deriving Repr, DecidableEq

/-- One element of the `briefRecords` array in a Search Brief Bibliographic
Resources API response. -/
structure BriefRecord where
  oclcNumber : String
deriving Repr, DecidableEq

/-- The parsed body of a Search Brief Bibliographic Resources API
response. -/
structure SearchResponseBody where
  numberOfRecords : Nat
  briefRecords : List BriefRecord
deriving Repr, DecidableEq

/-- Embedding of `WorldCatSearchBuffer.add` (lines 845-865): appending to a
non-empty `record_list` raises `AssertionError` before any mutation. -/
def worldcat_search_add (record_list : List SearchRecord)
    (record_data : SearchRecord) :
    Option String × List SearchRecord :=
  if record_list.length = 0 then
    (none, record_list ++ [record_data])
  else
    (some ("Cannot add to a non-empty WorldCatSearchBuffer. Buffer " ++
      "currently contains " ++ toString record_list.length ++
      " record(s)."), record_list)

/-- Embedding of `WorldCatSearchBuffer.process_records` (lines 867-952):
asserts that the buffer holds exactly one record, issues the search (HTTP
errors propagate), re-raises a JSON decode failure, treats zero matches as
an assertion failure, stores the OCLC number into the owning DataFrame row
on a single match, and flags the row on multiple matches. -/
def worldcat_search_process_records (record_list : List SearchRecord)
    (df : List SearchRow) (response : ApiResponse SearchResponseBody) :
    Option ProcError × List SearchRow :=
  match record_list with
  | [r] =>
    (match response with
     | .httpError status => (some (.httpError status), df)
     | .ok (.error _) => (some .jsonDecodeError, df)
     | .ok (.ok body) =>
       if body.numberOfRecords = 0 then
         (some (.assertionError "No records found in WorldCat."), df)
       else if body.numberOfRecords = 1 then
         match body.briefRecords.head? with
         | some br =>
           (none, df.set r.Index
             { df.getD r.Index ⟨none, false⟩ with
                oclc_num := some br.oclcNumber })
         | none => (some .indexError, df)
       else
         (none, df.set r.Index
           { df.getD r.Index ⟨none, false⟩ with
              found_multiple_oclc_nums := true }))
  | rl =>
    (some (.assertionError ("Buffer must contain exactly one record but " ++
      "instead contains " ++ toString rl.length ++
      " records. Cannot process buffer.")), df)

/-! ## RecordSearchBuffer (spec-modelled)

`search_worldcat.py` instantiates `libraries.records_buffer.RecordSearchBuffer`
and calls `process_records(search_my_library_holdings_first)`, but that class
is not part of the `records_buffer.py` under `src/` (which only has the
earlier `WorldCatSearchBuffer`); its behaviour is modelled here from the
specification and from the driver docstring (`search_worldcat.py`,
lines 56-80). -/

/-- One input-file row as read by the search driver. Missing identifier
cells are empty strings (`keep_default_na=False`). -/
structure InputRecord where
  Index : Nat
  lccn_fixed : String
  lccn : String
  isbn : String
  issn : String
  gov_doc_class_num_086 : String
  gpo_item_num_074 : String
deriving Repr, DecidableEq

/-- The identifier a WorldCat search is built from. -/
inductive SearchIdentifier
  | lccnFixed (v : String)
  | lccnRaw (v : String)
  | isbn (v : String)
  | issn (v : String)
  | govDoc (v : String) (gpo : Option String)
deriving Repr, DecidableEq

/-- Modelled from the spec: `RecordSearchBuffer.process_records` searches
"using the first available record identifier (in this order): lccn_fixed,
lccn, isbn, issn, gov_doc_class_num_086 (combined with gpo_item_num_074
when that is also available; if only gpo_item_num_074 is available, then no
search is performed)". -/
def choose_search_identifier (r : InputRecord) : Option SearchIdentifier :=
  if r.lccn_fixed ≠ "" then some (.lccnFixed r.lccn_fixed)
  else if r.lccn ≠ "" then some (.lccnRaw r.lccn)
  else if r.isbn ≠ "" then some (.isbn r.isbn)
  else if r.issn ≠ "" then some (.issn r.issn)
  else if r.gov_doc_class_num_086 ≠ "" then
    some (.govDoc r.gov_doc_class_num_086
      (if r.gpo_item_num_074 ≠ "" then some r.gpo_item_num_074 else none))
  else none

/-- Outcome of one modelled search for the owning row. -/
inductive SearchOutcome
  | noIdentifier
  | zeroMatchFailure
  | resolved (oclcNum : String)
  | ambiguous
deriving Repr, DecidableEq

/-- Observable trace of one modelled `RecordSearchBuffer.process_records`
call on a single-record buffer. -/
structure RecordSearchTrace where
  query_used : Option SearchIdentifier
  held_by_filter_applied : Bool
  outcome : SearchOutcome
  row : SearchRow
deriving Repr, DecidableEq

/-- Modelled from the spec: `RecordSearchBuffer.process_records` (absent
from `src/`) — "`process` searches using the first identifier field
present ..., filtered by held-by-my-institution only if the caller requests
that search order; a response of zero matches is a failure; one match sets
the resolved identifier on the owning row; more than one match marks the
row as ambiguous without resolving it". `numberOfRecords` and
`first_oclc_num` abstract the API response for the query issued. -/
def record_search_process_records (search_my_library_holdings_first : Bool)
    (r : InputRecord) (numberOfRecords : Nat) (first_oclc_num : String) :
    RecordSearchTrace :=
  match choose_search_identifier r with
  | none =>
    { query_used := none, held_by_filter_applied := false,
      outcome := .noIdentifier, row := ⟨none, false⟩ }
  | some q =>
    { query_used := some q,
      held_by_filter_applied := search_my_library_holdings_first,
      outcome :=
        if numberOfRecords = 0 then .zeroMatchFailure
        else if numberOfRecords = 1 then .resolved first_oclc_num
        else .ambiguous,
      row :=
        if numberOfRecords = 0 then ⟨none, false⟩
        else if numberOfRecords = 1 then ⟨some first_oclc_num, false⟩
        else ⟨none, true⟩ }

/-! ## The search driver loop (`search_worldcat.py`, `main`) -/

/-- The result columns the driver adds to every input row
(`search_worldcat.py`, lines 121-126); all start as NaN (`none`). -/
structure DataRow where
  oclc_num : Option String
  num_records_held_by : Option Nat
  num_records_total : Option Nat
  error : Option String
deriving Repr, DecidableEq

/-- A fresh, untouched result row (all columns NaN). -/
def emptyDataRow : DataRow := ⟨none, none, none, none⟩

/-- What a successful `process_records` call writes into the owning row. -/
inductive RowEffect
  | setOclc (num : String)
  | setMultiple (total : Nat)
deriving Repr, DecidableEq

/-- Apply a successful process effect to the owning row. -/
def applyEffect (row : DataRow) : RowEffect → DataRow
  | .setOclc v => { row with oclc_num := some v }
  | .setMultiple t => { row with num_records_total := some t }

/-- How one `records_buffer.process_records` call ends, as the driver
observes it (`search_worldcat.py` handles AssertionError, HTTPError,
JSONDecodeError and Exception separately). -/
inductive ProcessOutcome
  | ok (eff : RowEffect)
  | httpError (status : Nat)
  | assertionError (msg : String)
  | jsonDecodeError
  | otherError (msg : String)
deriving Repr, DecidableEq

/-- How the single retry of `process_records` ends (the retry is guarded by
a handler that catches `HTTPError` only). -/
inductive RetryOutcome
  | ok (eff : RowEffect)
  | httpError (status : Nat)
deriving Repr, DecidableEq

/-- One input row together with the outcome script of its (at most two)
`process_records` calls. -/
structure DriverRow where
  mms_id : String
  outcome1 : ProcessOutcome
  outcome2 : RetryOutcome
deriving Repr, DecidableEq

/-- The driver state threaded through the loop of `main`
(`search_worldcat.py`, lines 128-224): the `records_already_processed`
set, the records buffer contents, one result row per processed input row,
the trace of `process_records` calls (row index and buffer contents at the
call), and whether the run has been halted by consecutive errors. -/
structure DriverState where
  records_already_processed : List String
  buffer : List String
  table : List DataRow
  trace : List (Nat × List String)
  halted : Bool
deriving Repr, DecidableEq

/-- Driver state at the start of a run. -/
def initDriverState : DriverState := ⟨[], [], [], [], false⟩

/-- The 5xx test of the driver (line 177): the decimal representation of
the status starts with the character 5. -/
def is_server_error (status : Nat) : Bool :=
  (Nat.repr status).data.head? == some '5'

/-- The duplicate-MMS-ID assertion message (lines 144-145). -/
def duplicate_mms_msg (mms_id : String) : String :=
  "Assertion Error: Record with MMS ID " ++ mms_id ++
    " has already been processed."

/-- A result row holding only an error message (the `finally` block writes
`error_msg` into the error column of the owning row). -/
def errRow (msg : String) : DataRow :=
  { emptyDataRow with error := some msg }

/-- One iteration of the driver loop (`search_worldcat.py`, lines 132-224):
validate the MMS ID, reject duplicates before `add`, assert the buffer is
empty, add the row, process it, retry exactly once on a server-side (5xx)
HTTP error, record any error in the error column in `finally`, halt on
consecutive HTTP errors (leaving the buffer uncleared), and otherwise clear
the buffer. `validate` models `libraries.record.get_valid_record_identifier`
(whose module is outside the embedded core); a validation failure is caught
by the generic `except Exception` handler. -/
def driver_step (validate : String → Except String String)
    (st : DriverState) (row : DriverRow) : DriverState :=
  let idx := st.table.length
  match validate row.mms_id with
  | .error e =>
    { st with
      table := st.table ++ [errRow e],
      buffer := [] }
  | .ok mms_id =>
    if mms_id ∈ st.records_already_processed then
      { st with
        table := st.table ++ [errRow (duplicate_mms_msg mms_id)],
        buffer := [] }
    else
      let st1 := { st with
        records_already_processed :=
          st.records_already_processed ++ [mms_id] }
      if st1.buffer.length ≠ 0 then
        { st1 with
          table := st1.table ++
            [errRow "Assertion Error: Records buffer was not properly emptied."],
          buffer := [] }
      else
        let buf := st1.buffer ++ [mms_id]
        let st2 := { st1 with
          buffer := buf,
          trace := st1.trace ++ [(idx, buf)] }
        match row.outcome1 with
        | .ok eff =>
          { st2 with
            table := st2.table ++ [applyEffect emptyDataRow eff],
            buffer := [] }
        | .assertionError msg =>
          { st2 with
            table := st2.table ++ [errRow ("Assertion Error: " ++ msg)],
            buffer := [] }
        | .jsonDecodeError =>
          { st2 with
            table := st2.table ++ [errRow "JSON Decode Error"],
            buffer := [] }
        | .otherError msg =>
          { st2 with
            table := st2.table ++ [errRow msg],
            buffer := [] }
        | .httpError status =>
          if is_server_error status then
            let st3 := { st2 with trace := st2.trace ++ [(idx, buf)] }
            match row.outcome2 with
            | .ok eff =>
              { st3 with
                table := st3.table ++ [applyEffect emptyDataRow eff],
                buffer := [] }
            | .httpError status2 =>
              { st3 with
                table := st3.table ++
                  [errRow ("HTTP Error " ++ toString status2)],
                halted := true }
          else
            { st2 with
              table := st2.table ++
                [errRow ("HTTP Error " ++ toString status)],
              buffer := [] }

/-- The driver loop over the remaining input rows; once halted, no further
row is processed. -/
def run_driver (validate : String → Except String String) :
    DriverState → List DriverRow → DriverState
  | st, [] => st
  | st, row :: rest =>
    if st.halted then st
    else run_driver validate (driver_step validate st row) rest

/-- A whole run of `main` over the input rows. -/
def run_main (validate : String → Except String String)
    (rows : List DriverRow) : DriverState :=
  run_driver validate initDriverState rows

/-- The full output DataFrame at the end of a run: rows never reached keep
their initial all-NaN result columns. -/
def padded_table (rows : List DriverRow) (st : DriverState) :
    List DataRow :=
  st.table ++ List.replicate (rows.length - st.table.length) emptyDataRow

/-- Membership tests for the three output files the driver writes
(`search_worldcat.py`, lines 229-255): `dropna(subset=[oclc_num])`,
`dropna(how=all, subset=[num_records_held_by, num_records_total])`, and
`dropna(subset=[error])`. -/
def in_oclc_bucket (r : DataRow) : Bool := r.oclc_num.isSome

def in_zero_or_multiple_bucket (r : DataRow) : Bool :=
  r.num_records_held_by.isSome || r.num_records_total.isSome

def in_error_bucket (r : DataRow) : Bool := r.error.isSome

/-- A row lands in exactly one of the three output buckets. -/
def in_exactly_one_bucket (r : DataRow) : Bool :=
  ((if in_oclc_bucket r then 1 else 0 : Nat) +
    (if in_zero_or_multiple_bucket r then 1 else 0) +
    (if in_error_bucket r then 1 else 0)) == 1

/-- The end-of-run reconciliation assert (`search_worldcat.py`,
lines 271-285): the input row count must equal the sum of the rows across
the three output files. It is executed on every run, aborted or not. -/
def reconciliation_check (rows : List DriverRow) (st : DriverState) :
    Bool :=
  let t := padded_table rows st
  rows.length == (t.filter in_oclc_bucket).length +
    (t.filter in_zero_or_multiple_bucket).length +
    (t.filter in_error_bucket).length

/-- C1: on a token-expired failure the client renews by refresh-token grant
iff a refresh token is configured and its expiry minus `now` exceeds 25
seconds (a missing expiry counting as epoch 0); otherwise it performs a
full client-credentials grant and additionally persists the new refresh
token and its expiry; in both cases the new access token, token type and
access-token expiry are persisted and the request is replayed exactly once
(two invocations in total). -/
theorem make_api_request_renewal (env : OAuthEnv) (now : Int)
    (tid url : String) (full_tok : FullGrantToken)
    (refresh_tok : RefreshGrantToken) :
    let tr := make_api_request env now tid url true full_tok refresh_tok
    ((tr.grant_used = some .refreshGrant) ↔
      (env.refresh_token.isSome ∧
        env.refresh_token_expires_at.getD 0 - now > 25)) ∧
    ((tr.grant_used = some .fullGrant) ↔
      ¬(env.refresh_token.isSome ∧
        env.refresh_token_expires_at.getD 0 - now > 25)) ∧
    (tr.grant_used = some .fullGrant →
      (refreshTokenVar, full_tok.new_refresh_token) ∈ tr.persisted ∧
      (refreshTokenExpiresVar, full_tok.new_refresh_token_expires_at)
        ∈ tr.persisted ∧
      (accessTokenVar, full_tok.access_token) ∈ tr.persisted ∧
      (accessTokenTypeVar, full_tok.token_type) ∈ tr.persisted ∧
      (accessTokenExpiresVar, full_tok.expires_at) ∈ tr.persisted) ∧
    (tr.grant_used = some .refreshGrant →
      (accessTokenVar, refresh_tok.access_token) ∈ tr.persisted ∧
      (accessTokenTypeVar, refresh_tok.token_type) ∈ tr.persisted ∧
      (accessTokenExpiresVar, refresh_tok.expires_at) ∈ tr.persisted) ∧
    tr.request_count = 2 := by
  by_cases hc : env.refresh_token.isSome ∧
      env.refresh_token_expires_at.getD 0 - now > 25
  · simp [make_api_request, hc]
  · simp [make_api_request, hc]

/-- Witness for C1 at a concrete configuration: refresh token present with
31 seconds of lifetime left, so the refresh grant is chosen. -/
theorem make_api_request_renewal_witness :
    (make_api_request ⟨some "rt", some 1031⟩ 1000 "" "u" true
      ⟨"a", "b", "c", "r", "re"⟩ ⟨"a2", "b2", "c2"⟩).grant_used
      = some GrantKind.refreshGrant := by
  have h := make_api_request_renewal ⟨some "rt", some 1031⟩ 1000 "" "u"
    ⟨"a", "b", "c", "r", "re"⟩ ⟨"a2", "b2", "c2"⟩
  exact h.1.mpr (by constructor <;> decide)

/-- C9: the transaction id is the institution symbol, UTC timestamp and
principal id joined by underscores, the symbol prefix being omitted when no
symbol is configured (or it is configured blank) and the principal suffix
being omitted when no principal id is configured; it is empty exactly when
neither is configured; and `make_api_request` appends it to the request URL
as a `transactionID` query parameter iff it is non-empty. -/
theorem get_transaction_id_spec (ts s p url : String) (env : OAuthEnv)
    (now : Int) (expired : Bool) (full_tok : FullGrantToken)
    (refresh_tok : RefreshGrantToken) (hs : s ≠ "") :
    get_transaction_id none none ts = "" ∧
    get_transaction_id (some s) (some p) ts = s ++ "_" ++ ts ++ "_" ++ p ∧
    get_transaction_id none (some p) ts = ts ++ "_" ++ p ∧
    get_transaction_id (some s) none ts = s ++ "_" ++ ts ∧
    get_transaction_id (some "") (some p) ts = ts ++ "_" ++ p ∧
    get_transaction_id (some "") none ts = ts ∧
    (∀ tid : String,
      (make_api_request env now tid url expired full_tok
        refresh_tok).url_used =
      if tid ≠ "" then url ++ "&transactionID=" ++ tid else url) := by
  refine ⟨rfl, ?_, ?_, ?_, ?_, ?_, ?_⟩
  · simp [get_transaction_id, hs, String.append_assoc]
  · simp [get_transaction_id]
  · simp [get_transaction_id, hs]
  · simp [get_transaction_id]
  · simp [get_transaction_id]
  · intro tid
    by_cases h : tid = "" <;>
      simp [make_api_request, h] <;>
      cases expired <;>
        simp [make_api_request] <;>
        split <;> rfl

/-- Witness for C9 at concrete values. -/
theorem get_transaction_id_spec_witness :
    get_transaction_id (some "SYM") (some "pid") "2021-01-01T00:00:00Z"
      = "SYM_2021-01-01T00:00:00Z_pid" :=
  (get_transaction_id_spec "2021-01-01T00:00:00Z" "SYM" "pid" "u"
    ⟨none, none⟩ 0 false ⟨"a", "b", "c", "r", "re"⟩ ⟨"a", "b", "c"⟩
    (by decide)).2.1

/-- Bucket characterization of the Alma classification loop: when every
response entry has its requested number in the buffer, the loop finishes
without an exception, appends to each output file exactly the rows of the
entries classified into that bucket (in response order), and increments
each counter by the size of its bucket. -/
theorem alma_run_loop_eq (oclc_num_dict : List (String × String))
    (entries : List AlmaEntry) :
    ∀ st : AlmaState,
    (∀ e ∈ entries, (oclc_num_dict.lookup e.requestedOclcNumber).isSome) →
    alma_run_loop oclc_num_dict st entries =
    (none,
      { records_with_current_oclc_num :=
          st.records_with_current_oclc_num ++
            (entries.filter (fun e => e.found && !e.merged)).map
              (fun e => [alma_mms oclc_num_dict e, e.currentOclcNumber]),
        records_with_old_oclc_num :=
          st.records_with_old_oclc_num ++
            (entries.filter (fun e => e.found && e.merged)).map
              (fun e => [alma_mms oclc_num_dict e, e.currentOclcNumber,
                e.requestedOclcNumber]),
        records_with_errors :=
          st.records_with_errors ++
            (entries.filter (fun e => !e.found)).map
              (fun e => [alma_mms oclc_num_dict e, e.requestedOclcNumber,
                alma_not_found_msg]),
        results :=
          { num_records_with_current_oclc_num :=
              st.results.num_records_with_current_oclc_num +
                (entries.filter (fun e => e.found && !e.merged)).length,
            num_records_with_old_oclc_num :=
              st.results.num_records_with_old_oclc_num +
                (entries.filter (fun e => e.found && e.merged)).length,
            num_records_with_errors :=
              st.results.num_records_with_errors +
                (entries.filter (fun e => !e.found)).length } }) := by
  induction entries with
  | nil => intro st _; simp [alma_run_loop]
  | cons e rest ih =>
    intro st hkeys
    have he : (oclc_num_dict.lookup e.requestedOclcNumber).isSome :=
      hkeys e (by simp)
    obtain ⟨mms, hm⟩ := Option.isSome_iff_exists.mp he
    have hrest : ∀ x ∈ rest,
        (oclc_num_dict.lookup x.requestedOclcNumber).isSome :=
      fun x hx => hkeys x (by simp [hx])
    cases hf : e.found with
    | false =>
      rw [show alma_run_loop oclc_num_dict st (e :: rest) =
          alma_run_loop oclc_num_dict
            { st with
              records_with_errors := st.records_with_errors ++
                [[mms, e.requestedOclcNumber, alma_not_found_msg]],
              results := { st.results with
                num_records_with_errors :=
                  st.results.num_records_with_errors + 1 } } rest from by
        simp [alma_run_loop, alma_step, hm, hf]]
      rw [ih _ hrest]
      simp [List.filter_cons, hf, alma_mms, hm, List.append_assoc]
      omega
    | true =>
      cases hg : e.merged with
      | false =>
        rw [show alma_run_loop oclc_num_dict st (e :: rest) =
            alma_run_loop oclc_num_dict
              { st with
                records_with_current_oclc_num :=
                  st.records_with_current_oclc_num ++
                    [[mms, e.currentOclcNumber]],
                results := { st.results with
                  num_records_with_current_oclc_num :=
                    st.results.num_records_with_current_oclc_num + 1 } }
              rest from by
          simp [alma_run_loop, alma_step, hm, hf, hg]]
        rw [ih _ hrest]
        simp [List.filter_cons, hf, hg, alma_mms, hm, List.append_assoc]
        omega
      | true =>
        rw [show alma_run_loop oclc_num_dict st (e :: rest) =
            alma_run_loop oclc_num_dict
              { st with
                records_with_old_oclc_num :=
                  st.records_with_old_oclc_num ++
                    [[mms, e.currentOclcNumber, e.requestedOclcNumber]],
                results := { st.results with
                  num_records_with_old_oclc_num :=
                    st.results.num_records_with_old_oclc_num + 1 } }
              rest from by
          simp [alma_run_loop, alma_step, hm, hf, hg]]
        rw [ih _ hrest]
        simp [List.filter_cons, hf, hg, alma_mms, hm, List.append_assoc]
        omega

/-- The three Alma bucket conditions partition the response entries: for
any identifier, the rows it contributes across the three buckets are as
many as its occurrences among the requested numbers. -/
theorem alma_bucket_partition (entries : List AlmaEntry) (k : String) :
    (entries.filter
        (fun e => e.requestedOclcNumber == k && !e.found)).length
      + (entries.filter
        (fun e => e.requestedOclcNumber == k &&
          (e.found && !e.merged))).length
      + (entries.filter
        (fun e => e.requestedOclcNumber == k &&
          (e.found && e.merged))).length
      = (entries.map (·.requestedOclcNumber)).count k := by
  induction entries with
  | nil => simp
  | cons e rest ih =>
    by_cases hk : e.requestedOclcNumber = k
    · cases hf : e.found <;> cases hg : e.merged <;>
        simp [List.filter_cons, List.count_cons, hk, hf, hg] <;> omega
    · simp only [List.filter_cons, List.map_cons, List.count_cons,
        beq_iff_eq, hk]
      simp [hk, ih]

/-- C2: for a holdings-check batch whose response covers each buffered
identifier, every input identifier lands in exactly one output bucket,
determined by the `found`/`merged` flags — not found gives an Error row
(record key, identifier, not-found message, error counter incremented),
found and not merged gives a Current row (record key, current identifier),
found and merged gives an Old row (record key, current identifier,
original identifier) — and each identifier occurring exactly once in the
response contributes exactly one row over the three buckets. -/
theorem alma_process_records_partitions
    (oclc_num_dict : List (String × String)) (entries : List AlmaEntry)
    (st : AlmaState) (k : String)
    (hkeys : ∀ e ∈ entries,
      (oclc_num_dict.lookup e.requestedOclcNumber).isSome)
    (hk : (entries.map (·.requestedOclcNumber)).count k = 1) :
    alma_process_records oclc_num_dict st (.ok (.ok entries)) =
    (none,
      { records_with_current_oclc_num :=
          st.records_with_current_oclc_num ++
            (entries.filter (fun e => e.found && !e.merged)).map
              (fun e => [alma_mms oclc_num_dict e, e.currentOclcNumber]),
        records_with_old_oclc_num :=
          st.records_with_old_oclc_num ++
            (entries.filter (fun e => e.found && e.merged)).map
              (fun e => [alma_mms oclc_num_dict e, e.currentOclcNumber,
                e.requestedOclcNumber]),
        records_with_errors :=
          st.records_with_errors ++
            (entries.filter (fun e => !e.found)).map
              (fun e => [alma_mms oclc_num_dict e, e.requestedOclcNumber,
                alma_not_found_msg]),
        results :=
          { num_records_with_current_oclc_num :=
              st.results.num_records_with_current_oclc_num +
                (entries.filter (fun e => e.found && !e.merged)).length,
            num_records_with_old_oclc_num :=
              st.results.num_records_with_old_oclc_num +
                (entries.filter (fun e => e.found && e.merged)).length,
            num_records_with_errors :=
              st.results.num_records_with_errors +
                (entries.filter (fun e => !e.found)).length } }) ∧
    (entries.filter
        (fun e => e.requestedOclcNumber == k && !e.found)).length
      + (entries.filter
        (fun e => e.requestedOclcNumber == k &&
          (e.found && !e.merged))).length
      + (entries.filter
        (fun e => e.requestedOclcNumber == k &&
          (e.found && e.merged))).length
      = 1 := by
  constructor
  · simpa [alma_process_records] using
      alma_run_loop_eq oclc_num_dict entries st hkeys
  · rw [alma_bucket_partition entries k, hk]

/-- Witness for C2: the end-to-end scenario of spec section 8 — three
identifiers where #1 is found and current, #2 is found and merged, #3 is
not found — yields exactly one Current, one Old and one Error row and
counters (1, 1, 1). -/
theorem alma_process_records_partitions_witness :
    alma_process_records [("1", "m1"), ("2", "m2"), ("3", "m3")] almaState0
      (.ok (.ok [⟨"1", "1", true, false⟩, ⟨"2", "22", true, true⟩,
        ⟨"3", "3", false, false⟩])) =
    (none,
      { records_with_current_oclc_num := [["m1", "1"]],
        records_with_old_oclc_num := [["m2", "22", "2"]],
        records_with_errors := [["m3", "3", alma_not_found_msg]],
        results := ⟨1, 1, 1⟩ }) := by
  have h := alma_process_records_partitions
    [("1", "m1"), ("2", "m2"), ("3", "m3")]
    [⟨"1", "1", true, false⟩, ⟨"2", "22", true, true⟩,
      ⟨"3", "3", false, false⟩]
    almaState0 "3" (by decide) (by decide)
  rw [h.1]
  simp [almaState0, alma_mms]
  decide

/-- Bucket characterization of the set/unset classification loop: each
bucket receives exactly the rows of the entries whose status selects it,
in response-entry order, and each counter grows by its bucket size. -/
theorem wc_run_loop_eq (api_msg : String) (entries : List HoldingEntry) :
    ∀ st : WorldCatState,
    wc_run_loop api_msg st entries =
    { records_updated := st.records_updated ++
        (entries.filter wc_is_200).map
          (fun e => [e.requestedOclcNumber, wc_new_oclc_num e,
            wc_oclc_num_msg e]),
      records_with_no_update_needed := st.records_with_no_update_needed ++
        (entries.filter (fun e => !wc_is_200 e && wc_is_409 e)).map
          (fun e => [e.requestedOclcNumber, wc_new_oclc_num e,
            api_msg ++ ": " ++ e.errorDetail ++ ". " ++ wc_oclc_num_msg e]),
      records_with_errors := st.records_with_errors ++
        (entries.filter (fun e => !wc_is_200 e && !wc_is_409 e)).map
          (fun e => [e.requestedOclcNumber, wc_new_oclc_num e,
            api_msg ++ ": " ++ e.httpStatusCode ++ ": " ++ e.errorDetail ++
              ". " ++ wc_oclc_num_msg e]),
      results :=
        { num_records_updated := st.results.num_records_updated +
            (entries.filter wc_is_200).length,
          num_records_with_no_update_needed :=
            st.results.num_records_with_no_update_needed +
              (entries.filter (fun e => !wc_is_200 e && wc_is_409 e)).length,
          num_records_with_errors := st.results.num_records_with_errors +
            (entries.filter
              (fun e => !wc_is_200 e && !wc_is_409 e)).length } } := by
  induction entries with
  | nil => intro st; simp [wc_run_loop]
  | cons e rest ih =>
    intro st
    cases h200 : wc_is_200 e with
    | true =>
      rw [show wc_run_loop api_msg st (e :: rest) =
          wc_run_loop api_msg (wc_step api_msg st e) rest from rfl, ih]
      simp [wc_step, h200, List.filter_cons, List.append_assoc]
      omega
    | false =>
      cases h409 : wc_is_409 e with
      | true =>
        rw [show wc_run_loop api_msg st (e :: rest) =
            wc_run_loop api_msg (wc_step api_msg st e) rest from rfl, ih]
        simp [wc_step, h200, h409, List.filter_cons, List.append_assoc]
        omega
      | false =>
        rw [show wc_run_loop api_msg st (e :: rest) =
            wc_run_loop api_msg (wc_step api_msg st e) rest from rfl, ih]
        simp [wc_step, h200, h409, List.filter_cons, List.append_assoc]
        omega

/-- C4: each entry of a set/unset-holding response is classified in
response-entry order by its embedded HTTP-status field — a 200-OK status
appends the identifier to the Updated bucket with a warning message exactly
when the current identifier differs from the requested one, a 409-Conflict
status appends it to the NoUpdateNeeded bucket with the conflict detail
recorded, and any other status appends it to the Error bucket with the
status and detail recorded. -/
theorem worldcat_process_records_classification
    (set_or_unset_choice : String) (st : WorldCatState)
    (entries : List HoldingEntry) :
    worldcat_process_records set_or_unset_choice st (.ok (.ok entries)) =
    (none,
      { records_updated := st.records_updated ++
          (entries.filter wc_is_200).map
            (fun e => [e.requestedOclcNumber, wc_new_oclc_num e,
              wc_oclc_num_msg e]),
        records_with_no_update_needed :=
          st.records_with_no_update_needed ++
            (entries.filter (fun e => !wc_is_200 e && wc_is_409 e)).map
              (fun e => [e.requestedOclcNumber, wc_new_oclc_num e,
                wc_api_msg set_or_unset_choice ++ ": " ++ e.errorDetail ++
                  ". " ++ wc_oclc_num_msg e]),
        records_with_errors := st.records_with_errors ++
          (entries.filter (fun e => !wc_is_200 e && !wc_is_409 e)).map
            (fun e => [e.requestedOclcNumber, wc_new_oclc_num e,
              wc_api_msg set_or_unset_choice ++ ": " ++ e.httpStatusCode ++
                ": " ++ e.errorDetail ++ ". " ++ wc_oclc_num_msg e]),
        results :=
          { num_records_updated := st.results.num_records_updated +
              (entries.filter wc_is_200).length,
            num_records_with_no_update_needed :=
              st.results.num_records_with_no_update_needed +
                (entries.filter
                  (fun e => !wc_is_200 e && wc_is_409 e)).length,
            num_records_with_errors := st.results.num_records_with_errors +
              (entries.filter
                (fun e => !wc_is_200 e && !wc_is_409 e)).length } }) ∧
    (∀ e : HoldingEntry,
      wc_oclc_num_msg e = "" ↔
        e.requestedOclcNumber = e.currentOclcNumber) := by
  constructor
  · show worldcat_process_records set_or_unset_choice st
      (.ok (.ok entries)) = _
    simp only [worldcat_process_records]
    rw [wc_run_loop_eq (wc_api_msg set_or_unset_choice) entries st]
  · intro e
    by_cases h : e.requestedOclcNumber = e.currentOclcNumber
    · simp [wc_oclc_num_msg, h]
    · simp only [wc_oclc_num_msg, beq_iff_eq, if_neg h]
      constructor
      · intro hz
        exfalso
        have hlen := congrArg String.length hz
        have h21 : ("Warning: OCLC number ").length = 21 := by decide
        simp [String.length_append] at hlen
        omega
      · intro hc
        exact absurd hc h

/-- Witness for C4: a concrete four-entry response exercising all three
buckets, including a 200 entry whose current identifier differs from the
requested one (so its Updated row carries a warning). -/
theorem worldcat_process_records_classification_witness :
    worldcat_process_records "set" worldcatState0
      (.ok (.ok [⟨"10", "10", "HTTP 200 OK", ""⟩,
        ⟨"11", "99", "HTTP 200 OK", ""⟩,
        ⟨"12", "12", "HTTP 409 Conflict", "Holding is already set"⟩,
        ⟨"13", "13", "HTTP 401 Unauthorized", "Unauthorized"⟩])) =
    (none,
      { records_updated := [["10", "", ""],
          ["11", "99",
            "Warning: OCLC number 11 has been updated to 99. Consider updating Alma record."]],
        records_with_no_update_needed :=
          [["12", "",
            "Problem with Set Holding API response: Holding is already set. "]],
        records_with_errors :=
          [["13", "",
            "Problem with Set Holding API response: HTTP 401 Unauthorized: Unauthorized. "]],
        results := ⟨2, 1, 1⟩ }) := by
  have h := (worldcat_process_records_classification "set" worldcatState0
    [⟨"10", "10", "HTTP 200 OK", ""⟩,
      ⟨"11", "99", "HTTP 200 OK", ""⟩,
      ⟨"12", "12", "HTTP 409 Conflict", "Holding is already set"⟩,
      ⟨"13", "13", "HTTP 401 Unauthorized", "Unauthorized"⟩]).1
  exact h.trans (by decide)

/-- C6: across the three buffer variants, `add` fails with an assertion
error exactly when the item is already present (holdings-check: duplicate
dictionary key; set/unset: duplicate set member) or, for the single-slot
search buffer, when the buffer is non-empty; a failing `add` leaves the
buffer unchanged, a successful one appends the item, and on the search
buffer an `add` directly after a successful `add` always fails. -/
theorem add_precondition (oclc_num_dict : List (String × String))
    (o m : String) (oclc_num_set : List String) (n : String)
    (record_list : List SearchRecord) (r r2 : SearchRecord) :
    ((alma_add oclc_num_dict o m).1.isSome ↔
      (oclc_num_dict.lookup o).isSome) ∧
    ((alma_add oclc_num_dict o m).1.isSome →
      (alma_add oclc_num_dict o m).2 = oclc_num_dict) ∧
    ((alma_add oclc_num_dict o m).1 = none →
      (alma_add oclc_num_dict o m).2 = oclc_num_dict ++ [(o, m)]) ∧
    ((worldcat_add oclc_num_set n).1.isSome ↔ n ∈ oclc_num_set) ∧
    ((worldcat_add oclc_num_set n).1.isSome →
      (worldcat_add oclc_num_set n).2 = oclc_num_set) ∧
    ((worldcat_search_add record_list r).1.isSome ↔ record_list ≠ []) ∧
    ((worldcat_search_add record_list r).1.isSome →
      (worldcat_search_add record_list r).2 = record_list) ∧
    ((worldcat_search_add record_list r).1 = none →
      (worldcat_search_add
        (worldcat_search_add record_list r).2 r2).1.isSome) := by
  refine ⟨?_, ?_, ?_, ?_, ?_, ?_, ?_, ?_⟩
  · by_cases h : (oclc_num_dict.lookup o).isSome <;> simp [alma_add, h]
  · by_cases h : (oclc_num_dict.lookup o).isSome <;> simp [alma_add, h]
  · by_cases h : (oclc_num_dict.lookup o).isSome <;> simp [alma_add, h]
  · by_cases h : n ∈ oclc_num_set <;> simp [worldcat_add, h]
  · by_cases h : n ∈ oclc_num_set <;> simp [worldcat_add, h]
  · cases record_list <;> simp [worldcat_search_add]
  · cases record_list <;> simp [worldcat_search_add]
  · cases record_list <;> simp [worldcat_search_add]

/-- Witness for C6: on the search buffer, an `add` right after a
successful `add` (no intervening clear) fails. -/
theorem add_precondition_witness :
    (worldcat_search_add
      (worldcat_search_add ([] : List SearchRecord) ⟨0, "a"⟩).2
      ⟨1, "b"⟩).1.isSome :=
  (add_precondition [] "x" "y" [] "z" [] ⟨0, "a"⟩ ⟨1, "b"⟩).2.2.2.2.2.2.2
    rfl

/-- C7: in all three buffer variants, a response body that fails to decode
as JSON is never swallowed: `process_records` re-raises the decode error to
its caller and writes no classification rows (the buffer and output state
are returned unchanged). -/
theorem process_records_reraises_decode_error
    (oclc_num_dict : List (String × String)) (ast : AlmaState)
    (set_or_unset_choice : String) (wst : WorldCatState)
    (r : SearchRecord) (df : List SearchRow) :
    alma_process_records oclc_num_dict ast (.ok (.error ())) =
      (some .jsonDecodeError, ast) ∧
    worldcat_process_records set_or_unset_choice wst (.ok (.error ())) =
      (some .jsonDecodeError, wst) ∧
    worldcat_search_process_records [r] df (.ok (.error ())) =
      (some .jsonDecodeError, df) := by
  exact ⟨rfl, rfl, rfl⟩


/-- C5: (spec-modelled `RecordSearchBuffer`) on a single-record buffer,
`process_records` searches with the first identifier present in the
priority order lccn_fixed, lccn, isbn, issn, gov_doc_class_num_086 (the
latter combined with gpo_item_num_074 when present); the
held-by-my-institution filter is applied exactly when the caller passes
`search_my_library_holdings_first`; zero matches is a failure that resolves
nothing; exactly one match stores the OCLC number on the owning row; more
than one match marks the row ambiguous without resolving it. -/
theorem record_search_process_records_spec
    (search_my_library_holdings_first : Bool) (r : InputRecord)
    (n : Nat) (oclc : String) :
    let tr := record_search_process_records search_my_library_holdings_first
      r n oclc
    (r.lccn_fixed ≠ "" →
      tr.query_used = some (.lccnFixed r.lccn_fixed)) ∧
    (r.lccn_fixed = "" → r.lccn ≠ "" →
      tr.query_used = some (.lccnRaw r.lccn)) ∧
    (r.lccn_fixed = "" → r.lccn = "" → r.isbn ≠ "" →
      tr.query_used = some (.isbn r.isbn)) ∧
    (r.lccn_fixed = "" → r.lccn = "" → r.isbn = "" → r.issn ≠ "" →
      tr.query_used = some (.issn r.issn)) ∧
    (r.lccn_fixed = "" → r.lccn = "" → r.isbn = "" → r.issn = "" →
      r.gov_doc_class_num_086 ≠ "" →
      tr.query_used = some (.govDoc r.gov_doc_class_num_086
        (if r.gpo_item_num_074 ≠ "" then some r.gpo_item_num_074
          else none))) ∧
    (r.lccn_fixed = "" → r.lccn = "" → r.isbn = "" → r.issn = "" →
      r.gov_doc_class_num_086 = "" →
      tr.query_used = none ∧ tr.outcome = .noIdentifier) ∧
    (tr.query_used.isSome →
      tr.held_by_filter_applied = search_my_library_holdings_first) ∧
    (tr.query_used.isSome → n = 0 →
      tr.outcome = .zeroMatchFailure ∧ tr.row = ⟨none, false⟩) ∧
    (tr.query_used.isSome → n = 1 →
      tr.outcome = .resolved oclc ∧ tr.row = ⟨some oclc, false⟩) ∧
    (tr.query_used.isSome → 1 < n →
      tr.outcome = .ambiguous ∧ tr.row = ⟨none, true⟩) := by
  refine ⟨?_, ?_, ?_, ?_, ?_, ?_, ?_, ?_, ?_, ?_⟩
  · intro h1
    simp [record_search_process_records, choose_search_identifier, h1]
  · intro h1 h2
    simp [record_search_process_records, choose_search_identifier, h1, h2]
  · intro h1 h2 h3
    simp [record_search_process_records, choose_search_identifier,
      h1, h2, h3]
  · intro h1 h2 h3 h4
    simp [record_search_process_records, choose_search_identifier,
      h1, h2, h3, h4]
  · intro h1 h2 h3 h4 h5
    simp [record_search_process_records, choose_search_identifier,
      h1, h2, h3, h4, h5]
  · intro h1 h2 h3 h4 h5
    simp [record_search_process_records, choose_search_identifier,
      h1, h2, h3, h4, h5]
  · intro hq
    cases hc : choose_search_identifier r with
    | none => simp [record_search_process_records, hc] at hq ⊢
    | some q => simp [record_search_process_records, hc]
  · intro hq hn
    cases hc : choose_search_identifier r with
    | none => simp [record_search_process_records, hc] at hq ⊢
    | some q => simp [record_search_process_records, hc, hn]
  · intro hq hn
    cases hc : choose_search_identifier r with
    | none => simp [record_search_process_records, hc] at hq ⊢
    | some q => simp [record_search_process_records, hc, hn]
  · intro hq hn
    cases hc : choose_search_identifier r with
    | none => simp [record_search_process_records, hc] at hq ⊢
    | some q =>
      have h0 : n ≠ 0 := by omega
      have h1 : n ≠ 1 := by omega
      simp [record_search_process_records, hc, h0, h1]

/-- Witness for C5: a record whose only identifier is a raw LCCN, searched
with the held-by filter requested, getting exactly one match. -/
theorem record_search_process_records_spec_witness :
    (record_search_process_records true ⟨0, "", "ln1", "", "", "", ""⟩ 1
      "42").outcome = SearchOutcome.resolved "42" :=
  ((record_search_process_records_spec true ⟨0, "", "ln1", "", "", "", ""⟩
    1 "42").2.2.2.2.2.2.2.2.1 (by decide) rfl).1

/-- A halted driver processes no further input rows. -/
theorem run_driver_halted (validate : String → Except String String)
    (rows : List DriverRow) (st : DriverState) (h : st.halted = true) :
    run_driver validate st rows = st := by
  cases rows with
  | nil => rfl
  | cons row rest => simp [run_driver, h]

/-- Decomposition of a run over a concatenation of input segments. -/
theorem run_driver_append (validate : String → Except String String)
    (xs ys : List DriverRow) :
    ∀ st : DriverState,
    run_driver validate st (xs ++ ys) =
      run_driver validate (run_driver validate st xs) ys := by
  induction xs with
  | nil => intro st; rfl
  | cons x rest ih =>
    intro st
    by_cases h : st.halted = true
    · rw [run_driver_halted validate (x :: rest ++ ys) st h,
        run_driver_halted validate (x :: rest) st h,
        run_driver_halted validate ys st h]
    · have h1 : run_driver validate st ((x :: rest) ++ ys) =
          run_driver validate (driver_step validate st x) (rest ++ ys) := by
        simp [run_driver, h]
      have h2 : run_driver validate st (x :: rest) =
          run_driver validate (driver_step validate st x) rest := by
        simp [run_driver, h]
      rw [h1, h2, ih]

/-- A driver step never removes an identifier from
`records_already_processed`. -/
theorem driver_step_processed_mono (validate : String → Except String String)
    (st : DriverState) (row : DriverRow) (id : String)
    (h : id ∈ st.records_already_processed) :
    id ∈ (driver_step validate st row).records_already_processed := by
  unfold driver_step
  cases validate row.mms_id with
  | error e => simpa using h
  | ok mms =>
    by_cases hd : mms ∈ st.records_already_processed
    · simpa [hd] using h
    · simp only [hd]
      repeat' split
      all_goals simp_all [List.mem_append]

/-- After a step on a row whose MMS ID validates to `id`, that `id` is in
`records_already_processed`. -/
theorem driver_step_processed_of_ok
    (validate : String → Except String String) (st : DriverState)
    (row : DriverRow) (id : String) (h : validate row.mms_id = .ok id) :
    id ∈ (driver_step validate st row).records_already_processed := by
  unfold driver_step
  rw [h]
  by_cases hd : id ∈ st.records_already_processed
  · simp [hd]
  · simp only [hd]
    repeat' split
    all_goals simp_all [List.mem_append]

/-- A run never removes an identifier from `records_already_processed`. -/
theorem run_driver_processed_mono (validate : String → Except String String)
    (rows : List DriverRow) :
    ∀ (st : DriverState) (id : String),
    id ∈ st.records_already_processed →
    id ∈ (run_driver validate st rows).records_already_processed := by
  induction rows with
  | nil => intro st id h; exact h
  | cons row rest ih =>
    intro st id h
    by_cases hh : st.halted = true
    · rw [run_driver_halted validate (row :: rest) st hh]; exact h
    · have hstep : run_driver validate st (row :: rest) =
          run_driver validate (driver_step validate st row) rest := by
        simp [run_driver, hh]
      rw [hstep]
      exact ih _ id (driver_step_processed_mono validate st row id h)

/-- The halted flag only ever turns on, never off. -/
theorem driver_step_halted_mono (validate : String → Except String String)
    (st : DriverState) (row : DriverRow) (h : st.halted = true) :
    (driver_step validate st row).halted = true := by
  unfold driver_step
  cases validate row.mms_id with
  | error e => simpa using h
  | ok mms =>
    by_cases hd : mms ∈ st.records_already_processed
    · simpa [hd] using h
    · simp only [hd]
      repeat' split
      all_goals simp_all

/-- If a run ends un-halted, it also started un-halted. -/
theorem run_driver_not_halted_start
    (validate : String → Except String String) (rows : List DriverRow)
    (st : DriverState)
    (h : (run_driver validate st rows).halted = false) :
    st.halted = false := by
  by_cases hs : st.halted = true
  · rw [run_driver_halted validate rows st hs] at h
    exact absurd hs (by simp [h])
  · simpa using hs

/-- After an un-halted run over rows including one whose MMS ID validates
to `id`, that `id` is in `records_already_processed`. -/
theorem mem_processed_of_validated
    (validate : String → Except String String) (xs : List DriverRow) :
    ∀ (st : DriverState) (rowi : DriverRow) (id : String),
    rowi ∈ xs → validate rowi.mms_id = .ok id →
    (run_driver validate st xs).halted = false →
    id ∈ (run_driver validate st xs).records_already_processed := by
  induction xs with
  | nil =>
    intro st rowi id hin
    exact absurd hin (List.not_mem_nil _)
  | cons x rest ih =>
    intro st rowi id hin hv hhalt
    have hs : st.halted = false :=
      run_driver_not_halted_start validate (x :: rest) st hhalt
    have hstep : run_driver validate st (x :: rest) =
        run_driver validate (driver_step validate st x) rest := by
      simp [run_driver, hs]
    rw [hstep] at hhalt ⊢
    rcases List.mem_cons.mp hin with rfl | hin2
    · exact run_driver_processed_mono validate rest _ id
        (driver_step_processed_of_ok validate st rowi id hv)
    · exact ih _ rowi id hin2 hv hhalt

/-- C3: in the driver loop, a row whose `process_records` call fails with a
server-side (5xx) HTTP error is retried exactly once on the same
unprocessed buffer contents; if the retry also fails with an HTTP error the
run halts (and a halted run processes no further rows, while the completed
table rows are untouched); if the retry succeeds the error is cleared and
the row gets its normal result; a non-5xx HTTP error is recorded without a
retry and the run continues; and the double-HTTP-error condition is the
only way a step halts the run. -/
theorem driver_retry_policy (validate : String → Except String String)
    (st : DriverState) (row : DriverRow) (mms : String)
    (hv : validate row.mms_id = .ok mms)
    (hnew : mms ∉ st.records_already_processed)
    (hbuf : st.buffer = []) :
    (∀ status : Nat, row.outcome1 = .httpError status →
      is_server_error status = true →
      (driver_step validate st row).trace =
        st.trace ++ [(st.table.length, [mms]), (st.table.length, [mms])]) ∧
    (∀ (status : Nat) (eff : RowEffect), row.outcome1 = .httpError status →
      is_server_error status = true → row.outcome2 = .ok eff →
      (driver_step validate st row).table =
        st.table ++ [applyEffect emptyDataRow eff] ∧
      (applyEffect emptyDataRow eff).error = none ∧
      (driver_step validate st row).halted = st.halted ∧
      (driver_step validate st row).buffer = []) ∧
    (∀ status status2 : Nat, row.outcome1 = .httpError status →
      is_server_error status = true →
      row.outcome2 = .httpError status2 →
      (driver_step validate st row).halted = true ∧
      (driver_step validate st row).table =
        st.table ++ [errRow ("HTTP Error " ++ toString status2)]) ∧
    (∀ status : Nat, row.outcome1 = .httpError status →
      is_server_error status = false →
      (driver_step validate st row).trace =
        st.trace ++ [(st.table.length, [mms])] ∧
      (driver_step validate st row).table =
        st.table ++ [errRow ("HTTP Error " ++ toString status)] ∧
      (driver_step validate st row).halted = st.halted) ∧
    (∀ (t : DriverState) (q : DriverRow),
      (driver_step validate t q).halted = true →
      t.halted = true ∨ ∃ s1 s2 : Nat, q.outcome1 = .httpError s1 ∧
        is_server_error s1 = true ∧ q.outcome2 = .httpError s2) ∧
    (∀ (t : DriverState) (rows : List DriverRow), t.halted = true →
      run_driver validate t rows = t) := by
  refine ⟨?_, ?_, ?_, ?_, ?_, ?_⟩
  · intro status h1 h5
    cases h2 : row.outcome2 <;>
      simp [driver_step, hv, hnew, hbuf, h1, h5, h2]
  · intro status eff h1 h5 h2
    refine ⟨?_, ?_, ?_, ?_⟩ <;>
      first
        | simp [driver_step, hv, hnew, hbuf, h1, h5, h2]
        | (cases eff <;> rfl)
  · intro status status2 h1 h5 h2
    constructor <;> simp [driver_step, hv, hnew, hbuf, h1, h5, h2]
  · intro status h1 h5
    refine ⟨?_, ?_, ?_⟩ <;> simp [driver_step, hv, hnew, hbuf, h1, h5]
  · intro t q hq
    by_cases ht : t.halted = true
    · exact Or.inl ht
    · right
      cases hval : validate q.mms_id with
      | error e =>
        simp [driver_step, hval] at hq
        exact absurd hq ht
      | ok mms2 =>
        by_cases hd : mms2 ∈ t.records_already_processed
        · simp [driver_step, hval, hd] at hq
          exact absurd hq ht
        · by_cases hb : t.buffer.length ≠ 0
          · simp [driver_step, hval, hd, hb] at hq
            exact absurd hq ht
          · cases ho1 : q.outcome1 with
            | ok eff =>
              simp [driver_step, hval, hd, hb, ho1] at hq
              exact absurd hq ht
            | assertionError m =>
              simp [driver_step, hval, hd, hb, ho1] at hq
              exact absurd hq ht
            | jsonDecodeError =>
              simp [driver_step, hval, hd, hb, ho1] at hq
              exact absurd hq ht
            | otherError m =>
              simp [driver_step, hval, hd, hb, ho1] at hq
              exact absurd hq ht
            | httpError s =>
              by_cases hs : is_server_error s = true
              · cases ho2 : q.outcome2 with
                | ok eff =>
                  simp [driver_step, hval, hd, hb, ho1, hs, ho2] at hq
                  exact absurd hq ht
                | httpError s2 => exact ⟨s, s2, rfl, hs, rfl⟩
              · simp [driver_step, hval, hd, hb, ho1, hs] at hq
                exact absurd hq ht
  · exact fun t rows h => run_driver_halted validate rows t h

/-- Witness for C3: from a fresh driver state, a 500 on the first attempt
followed by a successful retry stores the retried result (with no error)
for the row. -/
theorem driver_retry_policy_witness :
    (driver_step (fun s => .ok s) initDriverState
      ⟨"A", .httpError 500, .ok (.setOclc "7")⟩).table =
      initDriverState.table ++
        [applyEffect emptyDataRow (RowEffect.setOclc "7")] :=
  ((driver_retry_policy (fun s => .ok s) initDriverState
    ⟨"A", .httpError 500, .ok (.setOclc "7")⟩ "A" rfl (by decide)
    rfl).2.1 500 (.setOclc "7") rfl (by decide) rfl).1

/-- C10: a row whose validated MMS ID equals that of an earlier row of the
same (so-far un-halted) run is rejected by the duplicate precondition check
before `add`: no `process_records` call is made for it (the trace is
unchanged, so no API request is issued), its error column records the
duplicate assertion error, the buffer stays empty, the run is not halted,
and processing continues with the remaining rows. -/
theorem duplicate_row_skipped (validate : String → Except String String)
    (xs zs : List DriverRow) (rowi rowj : DriverRow) (id : String)
    (hin : rowi ∈ xs)
    (hvi : validate rowi.mms_id = .ok id)
    (hvj : validate rowj.mms_id = .ok id)
    (hhalt : (run_main validate xs).halted = false) :
    let st1 := run_main validate xs
    let st2 := driver_step validate st1 rowj
    st2.trace = st1.trace ∧
    st2.buffer = [] ∧
    st2.table = st1.table ++ [errRow (duplicate_mms_msg id)] ∧
    st2.halted = false ∧
    st2.records_already_processed = st1.records_already_processed ∧
    run_main validate (xs ++ rowj :: zs) = run_driver validate st2 zs := by
  have hmem : id ∈ (run_main validate xs).records_already_processed :=
    mem_processed_of_validated validate xs initDriverState rowi id hin
      hvi hhalt
  refine ⟨?_, ?_, ?_, ?_, ?_, ?_⟩
  · simp [driver_step, hvj, hmem]
  · simp [driver_step, hvj, hmem]
  · simp [driver_step, hvj, hmem]
  · simp only [driver_step, hvj]
    simp [hmem, hhalt]
  · simp [driver_step, hvj, hmem]
  · rw [run_main, run_driver_append validate xs (rowj :: zs) initDriverState]
    have hs : (run_driver validate initDriverState xs).halted = false :=
      hhalt
    simp [run_driver, hs, run_main]

/-- Witness for C10: a two-row run in which the second row repeats the
first MMS ID; the duplicate is rejected with no second API call. -/
theorem duplicate_row_skipped_witness :
    (driver_step (fun s => .ok s)
        (run_main (fun s => .ok s) [⟨"A", .ok (.setOclc "7"), .ok (.setOclc "7")⟩])
        ⟨"A", .ok (.setOclc "8"), .ok (.setOclc "8")⟩).table =
      (run_main (fun s => .ok s)
        [⟨"A", .ok (.setOclc "7"), .ok (.setOclc "7")⟩]).table ++
        [errRow (duplicate_mms_msg "A")] :=
  (duplicate_row_skipped (fun s => .ok s)
    [⟨"A", .ok (.setOclc "7"), .ok (.setOclc "7")⟩] []
    ⟨"A", .ok (.setOclc "7"), .ok (.setOclc "7")⟩
    ⟨"A", .ok (.setOclc "8"), .ok (.setOclc "8")⟩ "A"
    (by simp) rfl rfl (by decide)).2.2.1

/-- Every driver step appends exactly one result row, and that row belongs
to exactly one output bucket. -/
theorem driver_step_table_append (validate : String → Except String String)
    (st : DriverState) (row : DriverRow) :
    ∃ r0 : DataRow, (driver_step validate st row).table = st.table ++ [r0] ∧
      in_exactly_one_bucket r0 = true := by
  cases hval : validate row.mms_id with
  | error e => exact ⟨errRow e, by simp [driver_step, hval], rfl⟩
  | ok mms =>
    by_cases hd : mms ∈ st.records_already_processed
    · exact ⟨errRow (duplicate_mms_msg mms),
        by simp [driver_step, hval, hd], rfl⟩
    · by_cases hb : st.buffer.length ≠ 0
      · exact ⟨errRow "Assertion Error: Records buffer was not properly emptied.",
          by simp [driver_step, hval, hd, hb], rfl⟩
      · cases ho1 : row.outcome1 with
        | ok eff =>
          exact ⟨applyEffect emptyDataRow eff,
            by simp [driver_step, hval, hd, hb, ho1],
            by cases eff <;> rfl⟩
        | assertionError m =>
          exact ⟨errRow ("Assertion Error: " ++ m),
            by simp [driver_step, hval, hd, hb, ho1], rfl⟩
        | jsonDecodeError =>
          exact ⟨errRow "JSON Decode Error",
            by simp [driver_step, hval, hd, hb, ho1], rfl⟩
        | otherError m =>
          exact ⟨errRow m,
            by simp [driver_step, hval, hd, hb, ho1], rfl⟩
        | httpError s =>
          by_cases hs : is_server_error s = true
          · cases ho2 : row.outcome2 with
            | ok eff =>
              exact ⟨applyEffect emptyDataRow eff,
                by simp [driver_step, hval, hd, hb, ho1, hs, ho2],
                by cases eff <;> rfl⟩
            | httpError s2 =>
              exact ⟨errRow ("HTTP Error " ++ toString s2),
                by simp [driver_step, hval, hd, hb, ho1, hs, ho2], rfl⟩
          · exact ⟨errRow ("HTTP Error " ++ toString s),
              by simp [driver_step, hval, hd, hb, ho1, hs], rfl⟩

/-- Every result row a run writes belongs to exactly one output bucket. -/
theorem run_driver_table_buckets (validate : String → Except String String)
    (rows : List DriverRow) :
    ∀ st : DriverState,
    (∀ r ∈ st.table, in_exactly_one_bucket r = true) →
    ∀ r ∈ (run_driver validate st rows).table,
      in_exactly_one_bucket r = true := by
  induction rows with
  | nil => intro st h; exact h
  | cons row rest ih =>
    intro st h
    by_cases hh : st.halted = true
    · rw [run_driver_halted validate (row :: rest) st hh]; exact h
    · have hstep : run_driver validate st (row :: rest) =
          run_driver validate (driver_step validate st row) rest := by
        simp [run_driver, hh]
      rw [hstep]
      refine ih _ ?_
      obtain ⟨r0, heq, h1⟩ := driver_step_table_append validate st row
      intro r hr
      rw [heq] at hr
      rcases List.mem_append.mp hr with hr1 | hr2
      · exact h r hr1
      · rw [List.mem_singleton.mp hr2]; exact h1

/-- Rows that each belong to exactly one bucket are counted exactly once by
the three bucket filters together. -/
theorem filter_bucket_partition (t : List DataRow)
    (h : ∀ r ∈ t, in_exactly_one_bucket r = true) :
    (t.filter in_oclc_bucket).length +
      (t.filter in_zero_or_multiple_bucket).length +
      (t.filter in_error_bucket).length = t.length := by
  induction t with
  | nil => simp
  | cons r rest ih =>
    have hr := h r (by simp)
    have hrest := ih (fun x hx => h x (by simp [hx]))
    unfold in_exactly_one_bucket at hr
    simp only [List.filter_cons]
    cases h1 : in_oclc_bucket r <;>
      cases h2 : in_zero_or_multiple_bucket r <;>
      cases h3 : in_error_bucket r <;>
      simp [h1, h2, h3] at hr ⊢ <;>
      omega

/-- C8 (amended): at the end of a run in which every input row was
processed — the run was not aborted before the last row by two consecutive
HTTP errors — every input row lands in exactly one of the three output
buckets and the input row count equals the sum of the rows across the
buckets, so the end-of-run reconciliation assert (which the driver executes
on every run) succeeds. -/
theorem run_reconciliation_complete
    (validate : String → Except String String) (rows : List DriverRow)
    (hcomplete : (run_main validate rows).table.length = rows.length) :
    (∀ r ∈ (run_main validate rows).table,
      in_exactly_one_bucket r = true) ∧
    reconciliation_check rows (run_main validate rows) = true := by
  have hall : ∀ r ∈ (run_main validate rows).table,
      in_exactly_one_bucket r = true :=
    run_driver_table_buckets validate rows initDriverState
      (by simp [initDriverState])
  refine ⟨hall, ?_⟩
  have h0 : rows.length - (run_main validate rows).table.length = 0 := by
    omega
  have hpad : padded_table rows (run_main validate rows) =
      (run_main validate rows).table := by
    simp [padded_table, h0]
  have hpart := filter_bucket_partition _ hall
  simp only [reconciliation_check, hpad, beq_iff_eq]
  omega

/-- Witness for C8 (amended): a complete two-row run — one resolved OCLC
number, one duplicate error — reconciles. -/
theorem run_reconciliation_complete_witness :
    reconciliation_check
      [⟨"A", .ok (.setOclc "7"), .ok (.setOclc "7")⟩,
        ⟨"A", .ok (.setOclc "8"), .ok (.setOclc "8")⟩]
      (run_main (fun s => .ok s)
        [⟨"A", .ok (.setOclc "7"), .ok (.setOclc "7")⟩,
          ⟨"A", .ok (.setOclc "8"), .ok (.setOclc "8")⟩]) = true :=
  (run_reconciliation_complete (fun s => .ok s)
    [⟨"A", .ok (.setOclc "7"), .ok (.setOclc "7")⟩,
      ⟨"A", .ok (.setOclc "8"), .ok (.setOclc "8")⟩] (by decide)).2

/-- Counterexample to C8 as stated: in a run aborted by two consecutive
server-side HTTP errors on its first row, the second input row lands in no
output bucket and the input row count does not equal the sum across the
buckets — the end-of-run reconciliation assert, which is still executed,
fails. -/
theorem run_reconciliation_counterexample :
    (run_main (fun s => .ok s)
      [⟨"A", .httpError 500, .httpError 503⟩,
        ⟨"B", .ok (.setOclc "1"), .ok (.setOclc "1")⟩]).halted = true ∧
    (run_main (fun s => .ok s)
      [⟨"A", .httpError 500, .httpError 503⟩,
        ⟨"B", .ok (.setOclc "1"), .ok (.setOclc "1")⟩]).table.length = 1 ∧
    padded_table
      [⟨"A", .httpError 500, .httpError 503⟩,
        ⟨"B", .ok (.setOclc "1"), .ok (.setOclc "1")⟩]
      (run_main (fun s => .ok s)
        [⟨"A", .httpError 500, .httpError 503⟩,
          ⟨"B", .ok (.setOclc "1"), .ok (.setOclc "1")⟩]) =
      [errRow "HTTP Error 503", emptyDataRow] ∧
    in_oclc_bucket emptyDataRow = false ∧
    in_zero_or_multiple_bucket emptyDataRow = false ∧
    in_error_bucket emptyDataRow = false ∧
    reconciliation_check
      [⟨"A", .httpError 500, .httpError 503⟩,
        ⟨"B", .ok (.setOclc "1"), .ok (.setOclc "1")⟩]
      (run_main (fun s => .ok s)
        [⟨"A", .httpError 500, .httpError 503⟩,
          ⟨"B", .ok (.setOclc "1"), .ok (.setOclc "1")⟩]) = false := by
  refine ⟨?_, ?_, ?_, rfl, rfl, rfl, ?_⟩ <;> decide
